import Mathlib

/-!
Verification of the block-transfer core of the backy2 backup system:
a shallow embedding of `src/backy2/io/file.py` (the file IO engine) and
`src/backy2/data_backends/s3.py` (the S3 object-store engine), with the
spec's claims settled against it.

Conventions of the embedding:
* bytes are `Nat` values (< 256 where it matters), byte strings are `List Nat`;
* a local file is its byte content, a `List Nat`; its length is the file size;
* the object store is the list of keys it holds;
* Python exceptions become explicit error values (`Except` / sum-like results);
* thread status updates, logging and `posix_fadvise` cache hints have no
  effect on any data the claims mention and are dropped;
* blocking (queue `get`/`put`, `join`, `time.sleep`) is modelled by explicit
  traces: the sequence of items a worker dequeues, or the sequence of
  responses the remote store gives to successive attempts.
-/

/-- A block descriptor as the engines consume it (`Block` in the spec):
`id` is the non-negative ordinal of the block in the file, `uid` the
object-store key when the block has been stored, `valid` a hint that the
block is being re-read.  The engines only read these fields. -/
structure Block where
  id : Nat
  uid : Option String
  valid : Bool
deriving DecidableEq

namespace FileEngine

/-- `f.seek(offset); f.read(count)` on a regular file: the slice of at most
`count` bytes starting at `offset` (Python returns fewer bytes only when EOF
is reached, i.e. exactly the bytes of the file that lie in the range). -/
def fileRead (file : List Nat) (offset count : Nat) : List Nat :=
  (file.drop offset).take count

/-- What `IO._reader` pushes onto the out-queue for one completed block:
`(block, data, data_checksum)`. -/
structure ReadResult where
  block : Block
  data : List Nat
  checksum : String
deriving DecidableEq

/-- One loop iteration of `IO._reader` (src/backy2/io/file.py) on a
non-sentinel block, against a file with the given content.  The code seeks to
`block.id * block_size`, reads `block_size` bytes, drops the range from the
page cache (a no-op for the data), raises
`RuntimeError('EOF reached on source when there should be data.')` when the
read returned no bytes at all (`if not data`), and otherwise enqueues the
block together with the data and `hash_function(data).hexdigest()`. -/
def readerStep (hash : List Nat → String) (file : List Nat) (block_size : Nat)
    (block : Block) : Except String ReadResult :=
  let offset := block.id * block_size
  let data := fileRead file offset block_size
  if data = [] then
    .error "EOF reached on source when there should be data."
  else
    .ok { block := block, data := data, checksum := hash data }

/-- `config.getint(key, default)`: the configured integer, or the default when
the key is absent. -/
def getint (config : String → Option Nat) (key : String) (default : Nat) : Nat :=
  (config key).getD default

/-- `IO.WRITE_QUEUE_LENGTH` (src/backy2/io/file.py). -/
def WRITE_QUEUE_LENGTH : Nat := 20

/-- `IO.READ_QUEUE_LENGTH` (src/backy2/io/file.py). -/
def READ_QUEUE_LENGTH : Nat := 20

/-- The fields `IO.__init__` derives from its configuration.  Note that the
source assigns `self.simultaneous_writes = config.getint('simultaneous_reads', 1)`:
both pool sizes are read from the key `'simultaneous_reads'`. -/
structure Engine where
  simultaneous_reads : Nat
  simultaneous_writes : Nat
  block_size : Nat
deriving DecidableEq

/-- `IO.__init__(config, block_size, hash_function)` (src/backy2/io/file.py,
lines 38-48); the hash function is kept as an explicit argument of
`readerStep`. -/
def initEngine (config : String → Option Nat) (block_size : Nat) : Engine :=
  { simultaneous_reads := getint config "simultaneous_reads" 1
    simultaneous_writes := getint config "simultaneous_reads" 1
    block_size := block_size }

/-- The ways `IO.open_w` can fail:
`targetExists` is `exit('Error opening restore target. You must force the restore.')`,
`targetTooSmall` is `exit('Error opening restore target.')`,
`negativeSeek` is the `ValueError` Python raises from `f.seek(size - 1)` when
`size = 0` (the file was just created empty by `open(..., 'wb')`, but opening
for read+write is never reached). -/
inductive OpenWError
  | targetExists
  | targetTooSmall
  | negativeSeek
deriving DecidableEq

/-- The observable outcome of a successful `IO.open_w`: how many writer
threads were started, the capacity `queue.Queue(...)` was given, and the
length of the file that is now open for read+write. -/
structure OpenWResult where
  num_writer_threads : Nat
  write_queue_capacity : Nat
  file_length : Nat
deriving DecidableEq

/-- `IO.open_w(io_name, size, force)` (src/backy2/io/file.py, lines 68-98)
against a file system where the target path either holds a file of length
`existing.get` or no file (`existing = none`).  When the file exists and
`force` is false the call exits; when it exists, `force` is set and it is
shorter than `size` the call exits; otherwise the existing file is opened
unchanged.  When the file is absent the code creates it with
`f.seek(size - 1); f.write(b'\0')`, giving it exactly `(size - 1) + 1` bytes
(for `size = 0` the seek position is negative and `seek` raises).  In every
non-error case `simultaneous_writes` writer threads are started on a write
queue of capacity `simultaneous_writes + WRITE_QUEUE_LENGTH`. -/
def open_w (engine : Engine) (existing : Option Nat) (size : Nat) (force : Bool) :
    Except OpenWError OpenWResult :=
  match existing with
  | some len =>
    if !force then
      .error .targetExists
    else if len < size then
      .error .targetTooSmall
    else
      .ok { num_writer_threads := engine.simultaneous_writes
            write_queue_capacity := engine.simultaneous_writes + WRITE_QUEUE_LENGTH
            file_length := len }
  | none =>
    if size = 0 then
      .error .negativeSeek
    else
      .ok { num_writer_threads := engine.simultaneous_writes
            write_queue_capacity := engine.simultaneous_writes + WRITE_QUEUE_LENGTH
            file_length := (size - 1) + 1 }

/-- `IO.close()` in read mode (src/backy2/io/file.py, lines 212-217): one
`None` sentinel is enqueued on the input queue per reader thread
(`for _reader_thread in self._reader_threads: self._inqueue.put(None)`),
then every thread is joined. -/
def closeSentinels (n : Nat) : List (Option Block) := List.replicate n none

/-- The whole content of the input queue over a run of the read pipeline:
the submitted blocks in submission order, then the `n` shutdown sentinels
that `close()` enqueues. -/
def inqueueTrace (jobs : List Block) (n : Nat) : List (Option Block) :=
  jobs.map some ++ closeSentinels n

/-- A completed consumption of the input queue by `n` reader workers:
`assignee p` names the worker that dequeued queue position `p`.  A FIFO
queue hands each position to exactly one worker, and `close()` joins every
thread, so every position is dequeued by some worker (`assignee` total on
the trace).  `stops` is the shape of the `_reader` loop: a worker that
dequeues the `None` sentinel forwards it and breaks immediately, so no later
position is dequeued by that worker. -/
structure ReaderRun (jobs : List Block) (n : Nat) where
  assignee : Nat → Nat
  assignee_lt : ∀ p, p < (inqueueTrace jobs n).length → assignee p < n
  stops : ∀ p q, p < q → q < (inqueueTrace jobs n).length →
    (inqueueTrace jobs n)[p]? = some none → assignee q ≠ assignee p

/-- The items worker `w` dequeues, in queue order. -/
def consumedBy (jobs : List Block) (n : Nat) (assignee : Nat → Nat) (w : Nat) :
    List (Option Block) :=
  ((List.range (inqueueTrace jobs n).length).filter (fun p => assignee p == w)).filterMap
    (fun p => (inqueueTrace jobs n)[p]?)

/-- What one reader worker pushes onto the output queue for each item it
dequeues: for a block, the completed `(block, data, checksum)` triple; for
the `None` sentinel, the forwarded `None` (`self._outqueue.put(None)`).
Assumes every dequeued job completes (`readerStep` is `.ok`); a failing job
would instead raise and produce nothing. -/
def workerOut (hash : List Nat → String) (file : List Nat) (bs : Nat)
    (consumed : List (Option Block)) : List (Option ReadResult) :=
  consumed.map (fun o => o.bind (fun b => (readerStep hash file bs b).toOption))

end FileEngine

/-- A configuration with `simultaneous_reads = 3` and
`simultaneous_writes = 5`, exercising claim C5. -/
def cfg35 : String → Option Nat := fun k =>
  if k = "simultaneous_reads" then some 3
  else if k = "simultaneous_writes" then some 5
  else none

/-- A one-job, one-worker reader run, exercising claim C8. -/
def runW : FileEngine.ReaderRun [⟨0, none, true⟩] 1 where
  assignee := fun _ => 0
  assignee_lt := fun _ _ => Nat.zero_lt_one
  stops := by
    intro p q hpq hq hp
    exfalso
    have hq2 : q < 2 := hq
    have hp0 : p = 0 := by omega
    subst hp0
    simp [FileEngine.inqueueTrace, FileEngine.closeSentinels] at hp

namespace MD5

/-!
Model of Python's `hashlib.md5(message).hexdigest()` over a byte list,
following RFC 1321.  `hashlib` is an external library; the claims only need
that the hex digest is a 32-character lowercase-hex string, which holds of
this implementation by construction.
-/

/-- `2 ^ 32`, the word modulus. -/
def M32 : Nat := 4294967296

/-- 32-bit wrapping addition. -/
def add32 (a b : Nat) : Nat := (a + b) % M32

/-- 32-bit complement. -/
def not32 (a : Nat) : Nat := Nat.xor (a % M32) 4294967295

/-- 32-bit left rotation by `n` (for `0 < n < 32`). -/
def rotl32 (x n : Nat) : Nat :=
  x % M32 / 2 ^ (32 - n) + x % M32 % 2 ^ (32 - n) * 2 ^ n

/-- The per-round left-rotation amounts. -/
def shiftTable : List Nat :=
  [7, 12, 17, 22, 7, 12, 17, 22, 7, 12, 17, 22, 7, 12, 17, 22,
   5, 9, 14, 20, 5, 9, 14, 20, 5, 9, 14, 20, 5, 9, 14, 20,
   4, 11, 16, 23, 4, 11, 16, 23, 4, 11, 16, 23, 4, 11, 16, 23,
   6, 10, 15, 21, 6, 10, 15, 21, 6, 10, 15, 21, 6, 10, 15, 21]

/-- The binary integer parts of `abs(sin(i + 1)) * 2^32`. -/
def sineTable : List Nat :=
  [3614090360, 3905402710, 606105819, 3250441966, 4118548399, 1200080426, 2821735955, 4249261313,
   1770035416, 2336552879, 4294925233, 2304563134, 1804603682, 4254626195, 2792965006, 1236535329,
   4129170786, 3225465664, 643717713, 3921069994, 3593408605, 38016083, 3634488961, 3889429448,
   568446438, 3275163606, 4107603335, 1163531501, 2850285829, 4243563512, 1735328473, 2368359562,
   4294588738, 2272392833, 1839030562, 4259657740, 2763975236, 1272893353, 4139469664, 3200236656,
   681279174, 3936430074, 3572445317, 76029189, 3654602809, 3873151461, 530742520, 3299628645,
   4096336452, 1126891415, 2878612391, 4237533241, 1700485571, 2399980690, 4293915773, 2240044497,
   1873313359, 4264355552, 2734768916, 1309151649, 4149444226, 3174756917, 718787259, 3951481745]

/-- The eight bytes of the little-endian 64-bit message bit length. -/
def lengthBytes (bits : Nat) : List Nat :=
  (List.range 8).map (fun i => bits / 2 ^ (8 * i) % 256)

/-- MD5 padding: a `0x80` byte, zero bytes up to 56 mod 64, then the bit
length, little-endian in 8 bytes. -/
def padMessage (msg : List Nat) : List Nat :=
  msg ++ [128] ++ List.replicate ((119 - msg.length % 64) % 64) 0
      ++ lengthBytes (msg.length * 8)

/-- The little-endian 32-bit word `j` of a 64-byte chunk. -/
def word (c : List Nat) (j : Nat) : Nat :=
  c.getD (4 * j) 0 + 256 * c.getD (4 * j + 1) 0
    + 65536 * c.getD (4 * j + 2) 0 + 16777216 * c.getD (4 * j + 3) 0

/-- The nonlinear function of round `i`: F, G, H, I per RFC 1321. -/
def mix (i b c d : Nat) : Nat :=
  if i < 16 then Nat.lor (Nat.land b c) (Nat.land (not32 b) d)
  else if i < 32 then Nat.lor (Nat.land d b) (Nat.land (not32 d) c)
  else if i < 48 then Nat.xor (Nat.xor b c) d
  else Nat.xor c (Nat.lor b (not32 d))

/-- The message-word index used in round `i`. -/
def wordIndex (i : Nat) : Nat :=
  if i < 16 then i
  else if i < 32 then (5 * i + 1) % 16
  else if i < 48 then (3 * i + 5) % 16
  else 7 * i % 16

/-- One of the 64 rounds, transforming the state `(a, b, c, d)`. -/
def roundStep (c64 : List Nat) (st : Nat × Nat × Nat × Nat) (i : Nat) :
    Nat × Nat × Nat × Nat :=
  let f := add32 (add32 (add32 st.1 (mix i st.2.1 st.2.2.1 st.2.2.2))
    (sineTable.getD i 0)) (word c64 (wordIndex i))
  (st.2.2.2, add32 st.2.1 (rotl32 f (shiftTable.getD i 0)), st.2.1, st.2.2.1)

/-- Process one 64-byte chunk: 64 rounds, then add the input state back. -/
def processChunk (st : Nat × Nat × Nat × Nat) (c64 : List Nat) :
    Nat × Nat × Nat × Nat :=
  let r := (List.range 64).foldl (roundStep c64) st
  (add32 st.1 r.1, add32 st.2.1 r.2.1, add32 st.2.2.1 r.2.2.1, add32 st.2.2.2 r.2.2.2)

/-- The initial state `(A, B, C, D)`. -/
def initState : Nat × Nat × Nat × Nat := (1732584193, 4023233417, 2562383102, 271733878)

/-- The final state after all chunks of the padded message. -/
def md5State (msg : List Nat) : Nat × Nat × Nat × Nat :=
  let p := padMessage msg
  (List.range (p.length / 64)).foldl
    (fun st i => processChunk st ((p.drop (64 * i)).take 64)) initState

/-- The four little-endian bytes of a 32-bit word. -/
def wordLE (x : Nat) : List Nat :=
  [x % 256, x / 256 % 256, x / 65536 % 256, x / 16777216 % 256]

/-- `md5(msg).digest()`: the 16 output bytes. -/
def md5Bytes (msg : List Nat) : List Nat :=
  wordLE (md5State msg).1 ++ wordLE (md5State msg).2.1
    ++ wordLE (md5State msg).2.2.1 ++ wordLE (md5State msg).2.2.2

/-- The sixteen lowercase hex digits. -/
def hexChars : List Char := "0123456789abcdef".data

/-- The two lowercase hex characters of one byte (`'%02x' % b`). -/
def byteHex (b : Nat) : List Char := [hexChars.getD (b / 16) '0', hexChars.getD (b % 16) '0']

/-- `md5(msg).hexdigest()` as a character list. -/
def hexdigest (msg : List Nat) : List Char := ((md5Bytes msg).map byteHex).flatten

end MD5

namespace S3Backend

/-- The Python exceptions the modelled code can raise.
`nameError n` is `NameError` from evaluating an unbound name `n`;
`clientError code` is a botocore `ClientError` carrying that error code. -/
inductive PyException
  | nameError (name : String)
  | fileNotFound (msg : String)
  | clientError (code : String)
  | typeError (msg : String)
deriving DecidableEq

/-- One response of the object store to a `get_object` attempt:
a successful object body, a `ClientError` with an error code, a
`socket.timeout`, or an `OSError` on the underlying connection. -/
inductive S3Response
  | obj (data : List Nat)
  | clientError (code : String)
  | sockTimeout
  | osError (msg : String)
deriving DecidableEq

/-- `DataBackend.read_raw(block_uid)` (src/backy2/data_backends/s3.py,
lines 183-212): an unbounded retry loop around `obj.get()`.  The argument
list is the store's response to each successive attempt; `none` means the
loop is still retrying when the trace runs out.  Branches, as in the source:
a successful get returns the body; a `ClientError` whose code is `NoSuchKey`
or `404` raises — but the source builds the message with
`'Key ... not found.'.format(key)` and no name `key` is bound (the parameter
is `block_uid`), so what is actually raised is a `NameError` for `key`;
any other `ClientError` is re-raised; `socket.timeout` and `OSError` are
logged and the loop retries.  The post-success throttling sleep does not
affect the returned data and is dropped. -/
def read_raw (block_uid : String) : List S3Response → Option (Except PyException (List Nat))
  | [] => none
  | resp :: rest =>
    match resp with
    | .obj data => some (.ok data)
    | .clientError code =>
      if code = "NoSuchKey" ∨ code = "404" then
        some (.error (.nameError "key"))
      else
        some (.error (.clientError code))
    | .sockTimeout => read_raw block_uid rest
    | .osError _ => read_raw block_uid rest

/-- `suuid.encode('ascii')`: the byte string of an ASCII character list. -/
def asciiEncode (s : String) : List Nat := s.data.map Char.toNat

/-- `DataBackend._uid()` (src/backy2/data_backends/s3.py, lines 215-222) as a
function of the freshly drawn `shortuuid.uuid()` value: the first 10
characters of `hashlib.md5(suuid.encode('ascii')).hexdigest()` followed by
the `suuid` itself. -/
def uid_from (suuid : String) : String :=
  ⟨(MD5.hexdigest (asciiEncode suuid)).take 10 ++ suuid.data⟩

/-- The 57-character alphabet `shortuuid` encodes UUIDs with (digits and
letters without 0, 1, O, I, l). -/
def base57Alphabet : List Char :=
  "23456789ABCDEFGHJKLMNPQRSTUVWXYZabcdefghijkmnopqrstuvwxyz".data

/-- `[0-9a-f]`. -/
def isLowerHexDigit (c : Char) : Bool :=
  ('0' ≤ c && c ≤ '9') || ('a' ≤ c && c ≤ 'f')

/-- `[0-9A-Za-z]`. -/
def isAsciiAlnum (c : Char) : Bool :=
  ('0' ≤ c && c ≤ '9') || ('A' ≤ c && c ≤ 'Z') || ('a' ≤ c && c ≤ 'z')

/-- The regular expression of the spec for generated uids,
`[0-9a-f]` ten times then `[0-9A-Za-z]` twenty-two times, anchored at both
ends: the string has length 32, its first 10 characters are lowercase hex
digits and the remaining 22 are ASCII alphanumerics. -/
def uidRegexMatches (s : List Char) : Bool :=
  s.length == 32 && (s.take 10).all isLowerHexDigit && (s.drop 10).all isAsciiAlnum

/-- The engine state the claims about `save` mention: the `fatal_error` slot
(`None` initially, holding the poisoning exception once set) and the content
of the bounded `_write_queue`. -/
structure BackendState where
  fatal_error : Option String
  write_queue : List (String × List Nat)
deriving DecidableEq

/-- `DataBackend.save(data, _sync)` (src/backy2/data_backends/s3.py,
lines 225-232), with the randomness of `shortuuid.uuid()` made explicit as
the `suuid` argument.  The source first raises the recorded `fatal_error`
when it is set — before `self._uid()` runs or anything is enqueued — and
otherwise generates `uid`, enqueues `(uid, data)` and returns the uid.
`_sync = true` additionally blocks on `self._write_queue.join()`, which has
no effect on the state in this model.  The pair returned is (call outcome,
engine state after the call). -/
def save (st : BackendState) (suuid : String) (data : List Nat) (_sync : Bool) :
    Except String String × BackendState :=
  match st.fatal_error with
  | some e => (.error e, st)
  | none =>
    let uid := uid_from suuid
    (.ok uid, { st with write_queue := st.write_queue ++ [(uid, data)] })

/-- How one writer worker's loop ended. `sentinel`: it dequeued `None` and
broke; `fatalSeen`: it dequeued an entry while `fatal_error` was set and
broke; `crashed e`: `obj.put(Body=data)` raised `e`, and since the loop body
of `DataBackend._writer` has no exception handler the exception escaped and
the thread died; `blocked`: the trace ended with the worker still waiting on
the queue. -/
inductive WriterExit
  | sentinel
  | fatalSeen
  | crashed (e : String)
  | blocked
deriving DecidableEq

/-- Everything observable about one writer worker's run: the `(uid, data)`
pairs successfully given to `put_object`, in order, how the loop ended, and
the value of the engine's `fatal_error` slot when it did. -/
structure WriterRun where
  written : List (String × List Nat)
  exit : WriterExit
  fatal_error_after : Option String
deriving DecidableEq

/-- `DataBackend._writer` (src/backy2/data_backends/s3.py, lines 127-156)
consuming its portion of the write queue: `entries` is the sequence of items
this worker dequeues (`none` being the shutdown sentinel), and
`putResult uid data` is the store's response to `put_object` —
`none` on success, `some e` when the call raises `e`.  The loop breaks when
the dequeued entry is `None` or `fatal_error` is set; the throttling sleep
and status updates are dropped; the `put` is not wrapped in any handler, so
a raising put terminates the thread, and no statement in the backend ever
assigns `fatal_error`, so the slot still holds its initial value whenever
the loop ends. -/
def writerRun (fatal_error : Option String)
    (putResult : String → List Nat → Option String) :
    List (Option (String × List Nat)) → WriterRun
  | [] => { written := [], exit := .blocked, fatal_error_after := fatal_error }
  | none :: _ => { written := [], exit := .sentinel, fatal_error_after := fatal_error }
  | some (uid, data) :: rest =>
    if fatal_error.isSome then
      { written := [], exit := .fatalSeen, fatal_error_after := fatal_error }
    else
      match putResult uid data with
      | some e => { written := [], exit := .crashed e, fatal_error_after := fatal_error }
      | none =>
        let r := writerRun fatal_error putResult rest
        { r with written := (uid, data) :: r.written }

/-- `DataBackend.rm(uid)` (src/backy2/data_backends/s3.py, lines 235-245)
against a store holding the given keys: `obj.load()` (a HEAD request) raises
a `404` for an absent key, which the code turns into
`FileNotFoundError('Key {uid} not found.')`; otherwise `obj.delete()`
removes the key.  The result is the store content after the call. -/
def rm (store : List String) (uid : String) : Except PyException (List String) :=
  if uid ∈ store then
    .ok (store.erase uid)
  else
    .error (.fileNotFound ("Key " ++ uid ++ " not found."))

/-- `DataBackend.rm_many(uids)` (src/backy2/data_backends/s3.py,
lines 248-254): `for uid in uids: self.rm(uid)` and an implicit
`return None`.  The first raising `rm` propagates; no list of failed uids is
built anywhere.  The model returns the store content on success — the Python
return value carries no information. -/
def rm_many (store : List String) : List String → Except PyException (List String)
  | [] => .ok store
  | uid :: rest =>
    match rm store uid with
    | .error e => .error e
    | .ok store2 => rm_many store2 rest

/-- Python's `len(x)` for `x` an optional byte string: raises `TypeError`
on `None`. -/
def pyLen : Option (List Nat) → Except PyException Nat
  | none => .error (.typeError "object of type NoneType has no len()")
  | some d => .ok d.length

/-- `DataBackend.read_get()` (src/backy2/data_backends/s3.py, lines 268-273)
applied to the entry it dequeues from `_read_data_queue`: the entry is
`(block, data)` with `data = None` signalling a missing key
(`DataBackend._reader` enqueues `(block, None)` on `FileNotFoundError`).
The code computes `offset = 0` and `length = len(data)` and returns
`(block, offset, length, data)`; `len(None)` raises. -/
def read_get (entry : Block × Option (List Nat)) :
    Except PyException (Block × Nat × Nat × Option (List Nat)) :=
  match pyLen entry.2 with
  | .error e => .error e
  | .ok length => .ok (entry.1, 0, length, entry.2)

end S3Backend

/-- Claim C1, counterexample: the claim states that every successfully
completed file-read job returns exactly `block_size` bytes, and that a
shorter read is a fatal runtime error.  On a 5-byte file with
`block_size = 4`, the job for block 1 completes successfully with 1 byte of
data: `IO._reader` raises only when the read returned no bytes at all. -/
theorem C1_counterexample :
    FileEngine.readerStep (fun _ => "h") [0, 0, 0, 0, 0] 4 ⟨1, none, true⟩ =
      .ok ⟨⟨1, none, true⟩, [0], "h"⟩ ∧
    (⟨⟨1, none, true⟩, [0], "h"⟩ : FileEngine.ReadResult).data.length ≠ 4 :=
  ⟨rfl, by decide⟩

/-- Claim C1, amended: every successfully completed file-read job returns the
slice of the file at offset `block.id * block_size` — nonempty, of at most
`block_size` bytes, and of exactly `block_size` bytes whenever the whole
block lies within file bounds — together with
`checksum = hash_function(data).hexdigest()`; the job is a fatal runtime
error exactly when that slice is empty (EOF with no data at all). -/
theorem C1_read_job_amended (hash : List Nat → String) (file : List Nat)
    (block_size : Nat) (block : Block) :
    (∀ r, FileEngine.readerStep hash file block_size block = .ok r →
      r.block = block ∧
      r.data = FileEngine.fileRead file (block.id * block_size) block_size ∧
      r.data ≠ [] ∧
      r.data.length ≤ block_size ∧
      (block.id * block_size + block_size ≤ file.length → r.data.length = block_size) ∧
      r.checksum = hash r.data) ∧
    (FileEngine.readerStep hash file block_size block =
        .error "EOF reached on source when there should be data." ↔
      FileEngine.fileRead file (block.id * block_size) block_size = []) := by
  constructor
  · intro r hr
    by_cases hd : FileEngine.fileRead file (block.id * block_size) block_size = []
    · simp [FileEngine.readerStep, hd] at hr
    · simp only [FileEngine.readerStep, if_neg hd] at hr
      cases hr
      refine ⟨rfl, rfl, hd, ?_, ?_, rfl⟩
      · simp [FileEngine.fileRead]
      · intro hin
        simp [FileEngine.fileRead]
        omega
  · by_cases hd : FileEngine.fileRead file (block.id * block_size) block_size = []
    · simp [FileEngine.readerStep, hd]
    · simp [FileEngine.readerStep, hd]

/-- Witness for the amended claim C1 at a concrete input: a 4-byte file,
`block_size = 2`, block 1 is fully in bounds and completes with 2 bytes. -/
theorem C1_witness :
    FileEngine.readerStep (fun _ => "h") [1, 2, 3, 4] 2 ⟨1, none, true⟩ =
      .ok ⟨⟨1, none, true⟩, [3, 4], "h"⟩ ∧
    (⟨⟨1, none, true⟩, [3, 4], "h"⟩ : FileEngine.ReadResult).data.length = 2 := by
  have h := (C1_read_job_amended (fun _ => "h") [1, 2, 3, 4] 2 ⟨1, none, true⟩).1
    ⟨⟨1, none, true⟩, [3, 4], "h"⟩ rfl
  exact ⟨rfl, h.2.2.2.2.1 (by decide)⟩

/-- Claim C2: on a `404`/`NoSuchKey` answer from the store, `read_raw` is
meant to raise `FileNotFoundError` naming the uid, but the message is built
from the unbound name `key`, so the branch actually raises a `NameError`;
timeouts and `OSError`s are retried and other `ClientError`s re-raised as
the claim says. -/
theorem C2_read_raw_missing_key :
    S3Backend.read_raw "someuid" [.clientError "NoSuchKey"] =
      some (.error (.nameError "key")) ∧
    S3Backend.read_raw "someuid" [.clientError "404"] =
      some (.error (.nameError "key")) ∧
    S3Backend.read_raw "someuid" [.sockTimeout, .osError "connection reset", .obj [1, 2]] =
      some (.ok [1, 2]) ∧
    S3Backend.read_raw "someuid" [.clientError "AccessDenied"] =
      some (.error (.clientError "AccessDenied")) :=
  ⟨rfl, rfl, rfl, rfl⟩

/-- Claim C3: a failing `put_object` in a writer worker is claimed to be
recorded in `fatal_error` so that later `save` calls raise.  In the code the
put is not wrapped in any handler and nothing ever assigns `fatal_error`:
the worker crashes, the slot still holds `none`, and a subsequent `save`
succeeds.  (The poisoning check itself is present: with the slot set,
`save` raises.) -/
theorem C3_write_failure_not_recorded :
    (S3Backend.writerRun none (fun _ _ => some "ClientError: InternalError")
        [some ("u1", [1]), some ("u2", [2]), none]).exit =
      .crashed "ClientError: InternalError" ∧
    (S3Backend.writerRun none (fun _ _ => some "ClientError: InternalError")
        [some ("u1", [1]), some ("u2", [2]), none]).fatal_error_after = none ∧
    (S3Backend.save ⟨none, []⟩ "abcdefghijkmnopqrstuvw" [3] false).1.isOk = true ∧
    (S3Backend.save ⟨some "boom", []⟩ "abcdefghijkmnopqrstuvw" [3] false).1 =
      .error "boom" :=
  ⟨rfl, rfl, rfl, rfl⟩

/-- Claim C4: `rm_many` is documented to return the uids that could not be
deleted, but it propagates the first failure: on a store holding only `b`,
`rm_many(['a', 'b'])` raises `FileNotFoundError` for `a` (its result type
carries no uid list, and `b` is not deleted), while a fully successful run
just deletes. -/
theorem C4_rm_many_propagates_first_failure :
    S3Backend.rm_many ["b"] ["a", "b"] = .error (.fileNotFound "Key a not found.") ∧
    S3Backend.rm_many ["a", "b"] ["a"] = .ok ["b"] :=
  ⟨rfl, rfl⟩

/-- Claim C5: `open_w` is claimed to start as many writer workers as the
configuration key `'simultaneous_writes'` says (5 here).  `IO.__init__`
assigns `self.simultaneous_writes = config.getint('simultaneous_reads', 1)`,
so `open_w` starts 3 workers with a queue capacity of `3 + 20`. -/
theorem C5_open_w_uses_reads_key :
    FileEngine.getint cfg35 "simultaneous_writes" 1 = 5 ∧
    FileEngine.open_w (FileEngine.initEngine cfg35 4096) (some 8192) 8192 true =
      .ok { num_writer_threads := 3, write_queue_capacity := 23, file_length := 8192 } :=
  ⟨rfl, rfl⟩

/-- Claim C6: with `fatal_error` set, `save` raises the recorded error
immediately and leaves the whole engine state — in particular the write
queue — untouched, and no uid is generated; with the slot unset, `save`
generates the uid from the fresh `shortuuid`, enqueues `(uid, data)` and
returns that same uid. -/
theorem C6_save_poisoned_or_enqueue (st : S3Backend.BackendState) (suuid : String)
    (data : List Nat) (sync : Bool) :
    (∀ e, st.fatal_error = some e →
      S3Backend.save st suuid data sync = (.error e, st)) ∧
    (st.fatal_error = none →
      S3Backend.save st suuid data sync =
        (.ok (S3Backend.uid_from suuid),
          { st with write_queue := st.write_queue ++ [(S3Backend.uid_from suuid, data)] })) := by
  constructor
  · intro e he
    simp [S3Backend.save, he]
  · intro h
    simp [S3Backend.save, h]

/-- Witness for claim C6 at concrete states: a poisoned engine rejects the
call with the recorded error and unchanged queue; a healthy engine enqueues
exactly one entry. -/
theorem C6_witness :
    S3Backend.save ⟨some "boom", [("u", [1])]⟩ "abcdefghijkmnopqrstuvw" [9] false =
      (.error "boom", ⟨some "boom", [("u", [1])]⟩) ∧
    (S3Backend.save ⟨none, []⟩ "abcdefghijkmnopqrstuvw" [9] false).2.write_queue.length = 1 := by
  refine ⟨(C6_save_poisoned_or_enqueue ⟨some "boom", [("u", [1])]⟩
    "abcdefghijkmnopqrstuvw" [9] false).1 "boom" rfl, ?_⟩
  rw [(C6_save_poisoned_or_enqueue ⟨none, []⟩ "abcdefghijkmnopqrstuvw" [9] false).2 rfl]
  rfl

/-- Claim C7, counterexample: at `size = 0` on an absent target the claim
asks for a sparse 0-byte file opened for read+write, but
`f.seek(size - 1)` is a negative seek and raises, so `open_w` fails. -/
theorem C7_counterexample :
    FileEngine.open_w (FileEngine.initEngine (fun _ => none) 4096) none 0 false =
      .error .negativeSeek ∧
    (FileEngine.open_w (FileEngine.initEngine (fun _ => none) 4096) none 0 false).isOk =
      false :=
  ⟨rfl, rfl⟩

/-- Claim C7, amended: for every path and every `size ≥ 1`, `open_w` creates
a sparse file of exactly `size` bytes when the target is absent; fails when
the target exists and `force` is false; fails when it exists, `force` is
set, and it is shorter than `size`; and otherwise opens the existing file
for read+write. -/
theorem C7_open_w_amended (eng : FileEngine.Engine) (existing : Option Nat)
    (size : Nat) (force : Bool) (hsize : 1 ≤ size) :
    (existing = none →
      FileEngine.open_w eng none size force =
        .ok { num_writer_threads := eng.simultaneous_writes
              write_queue_capacity := eng.simultaneous_writes + FileEngine.WRITE_QUEUE_LENGTH
              file_length := size }) ∧
    (∀ len, existing = some len → force = false →
      FileEngine.open_w eng existing size force = .error .targetExists) ∧
    (∀ len, existing = some len → force = true → len < size →
      FileEngine.open_w eng existing size force = .error .targetTooSmall) ∧
    (∀ len, existing = some len → force = true → size ≤ len →
      FileEngine.open_w eng existing size force =
        .ok { num_writer_threads := eng.simultaneous_writes
              write_queue_capacity := eng.simultaneous_writes + FileEngine.WRITE_QUEUE_LENGTH
              file_length := len }) := by
  have hs : size ≠ 0 := by omega
  refine ⟨?_, ?_, ?_, ?_⟩
  · intro _
    have h1 : size - 1 + 1 = size := by omega
    simp [FileEngine.open_w, hs, h1]
  · rintro len rfl rfl
    simp [FileEngine.open_w]
  · rintro len rfl rfl hlt
    simp [FileEngine.open_w, hlt]
  · rintro len rfl rfl hle
    simp [FileEngine.open_w, Nat.not_lt.mpr hle]

/-- Witness for the amended claim C7: on a missing 1 MiB target, `open_w`
creates the sparse file and opens it. -/
theorem C7_witness :
    FileEngine.open_w (FileEngine.initEngine (fun _ => none) 4096) none 1048576 false =
      .ok { num_writer_threads := 1, write_queue_capacity := 21, file_length := 1048576 } := by
  exact (C7_open_w_amended (FileEngine.initEngine (fun _ => none) 4096) none
    1048576 false (by decide)).1 rfl

/-- Claim C10: `read_get` is claimed to return `(block, 0, len(data), data)`
for every dequeued entry, including a missing-key entry with absent data.
On `(block, None)` the code evaluates `len(None)` and raises `TypeError`
instead (its own caller `read` checks the returned data against `None`,
which is unreachable); on present data it returns the quadruple. -/
theorem C10_read_get_absent_data :
    S3Backend.read_get (⟨3, some "uidX", true⟩, none) =
      .error (.typeError "object of type NoneType has no len()") ∧
    S3Backend.read_get (⟨3, some "uidX", true⟩, some [7, 8]) =
      .ok (⟨3, some "uidX", true⟩, 0, 2, some [7, 8]) :=
  ⟨rfl, rfl⟩

theorem md5_wordLE_lt {x b : Nat} (h : b ∈ MD5.wordLE x) : b < 256 := by
  simp [MD5.wordLE] at h
  rcases h with h | h | h | h <;> omega

theorem md5_md5Bytes_lt {msg : List Nat} : ∀ b ∈ MD5.md5Bytes msg, b < 256 := by
  intro b hb
  simp only [MD5.md5Bytes, List.mem_append] at hb
  rcases hb with ((h | h) | h) | h <;> exact md5_wordLE_lt h

theorem md5_md5Bytes_length {msg : List Nat} : (MD5.md5Bytes msg).length = 16 := by
  simp [MD5.md5Bytes, MD5.wordLE]

theorem flatten_uniform_length {α : Type} (f : α → List Char) (k : Nat)
    (hf : ∀ x, (f x).length = k) :
    ∀ l : List α, ((l.map f).flatten).length = l.length * k := by
  intro l
  induction l with
  | nil => simp
  | cons x xs ih =>
    simp [ih, hf]
    ring

theorem md5_hexdigest_length {msg : List Nat} : (MD5.hexdigest msg).length = 32 := by
  rw [MD5.hexdigest, flatten_uniform_length MD5.byteHex 2 (fun _ => rfl),
    md5_md5Bytes_length]

theorem hexChars_getD_hex :
    ∀ n, n < 16 → S3Backend.isLowerHexDigit (MD5.hexChars.getD n '0') = true := by
  intro n h
  interval_cases n <;> decide

theorem md5_hexdigest_hex {msg : List Nat} :
    ∀ c ∈ MD5.hexdigest msg, S3Backend.isLowerHexDigit c = true := by
  intro c hc
  simp only [MD5.hexdigest, List.mem_flatten, List.mem_map] at hc
  obtain ⟨l, ⟨b, hb, rfl⟩, hcl⟩ := hc
  have hblt : b < 256 := md5_md5Bytes_lt b hb
  have hdiv : b / 16 < 16 := by omega
  have hmod : b % 16 < 16 := by omega
  simp only [MD5.byteHex, List.mem_cons, List.not_mem_nil] at hcl
  rcases hcl with rfl | rfl | h
  · exact hexChars_getD_hex _ hdiv
  · exact hexChars_getD_hex _ hmod
  · cases h

theorem base57_alnum :
    ∀ c ∈ S3Backend.base57Alphabet, S3Backend.isAsciiAlnum c = true := by decide

/-- Claim C9: every generated uid is the first 10 hex characters of the MD5
digest of the 22-character base57 `shortuuid`, concatenated with that
`shortuuid`; it is 32 characters long and matches
`[0-9a-f]` ten times followed by `[0-9A-Za-z]` twenty-two times.  The
hypotheses are the contract of the external `shortuuid.uuid()`. -/
theorem C9_uid_wellformed (suuid : String)
    (hlen : suuid.data.length = 22)
    (halpha : ∀ c ∈ suuid.data, c ∈ S3Backend.base57Alphabet) :
    (S3Backend.uid_from suuid).data =
      (MD5.hexdigest (S3Backend.asciiEncode suuid)).take 10 ++ suuid.data ∧
    (S3Backend.uid_from suuid).data.length = 32 ∧
    S3Backend.uidRegexMatches (S3Backend.uid_from suuid).data = true := by
  have hdl : (MD5.hexdigest (S3Backend.asciiEncode suuid)).length = 32 :=
    md5_hexdigest_length
  have htl : ((MD5.hexdigest (S3Backend.asciiEncode suuid)).take 10).length = 10 := by
    rw [List.length_take, hdl]
    decide
  have hdata : (S3Backend.uid_from suuid).data =
      (MD5.hexdigest (S3Backend.asciiEncode suuid)).take 10 ++ suuid.data := rfl
  have hlen32 : (S3Backend.uid_from suuid).data.length = 32 := by
    rw [hdata, List.length_append, htl, hlen]
  refine ⟨hdata, hlen32, ?_⟩
  rw [S3Backend.uidRegexMatches]
  simp only [Bool.and_eq_true, beq_iff_eq]
  refine ⟨⟨hlen32, ?_⟩, ?_⟩
  · rw [hdata, List.take_left' htl, List.all_eq_true]
    intro c hc
    exact md5_hexdigest_hex c (List.take_subset 10 _ hc)
  · rw [hdata, List.drop_left' htl, List.all_eq_true]
    intro c hc
    exact base57_alnum c (halpha c hc)

/-- Witness for claim C9 on a concrete 22-character base57 `shortuuid`. -/
theorem C9_witness :
    ("abcdefghijkmnopqrstuvw" : String).data.length = 22 ∧
    S3Backend.uidRegexMatches (S3Backend.uid_from "abcdefghijkmnopqrstuvw").data = true :=
  ⟨by decide, (C9_uid_wellformed "abcdefghijkmnopqrstuvw" (by decide) (by decide)).2.2⟩

theorem inqueueTrace_length (jobs : List Block) (n : Nat) :
    (FileEngine.inqueueTrace jobs n).length = jobs.length + n := by
  simp [FileEngine.inqueueTrace, FileEngine.closeSentinels]

theorem inqueueTrace_job (jobs : List Block) (n : Nat) (p : Nat)
    (hp : p < jobs.length) :
    (FileEngine.inqueueTrace jobs n)[p]? = (jobs[p]?).map some := by
  rw [FileEngine.inqueueTrace, List.getElem?_append_left (by simpa using hp),
    List.getElem?_map]

theorem inqueueTrace_sentinel (jobs : List Block) (n : Nat) (p : Nat)
    (hp1 : jobs.length ≤ p) (hp2 : p < jobs.length + n) :
    (FileEngine.inqueueTrace jobs n)[p]? = some none := by
  rw [FileEngine.inqueueTrace, List.getElem?_append_right (by simpa using hp1)]
  simp only [FileEngine.closeSentinels, List.length_map, List.getElem?_replicate]
  rw [if_pos (by omega)]

theorem reader_assignee_inj (jobs : List Block) (n : Nat)
    (run : FileEngine.ReaderRun jobs n) :
    ∀ p q, jobs.length ≤ p → p < jobs.length + n → jobs.length ≤ q →
      q < jobs.length + n → run.assignee p = run.assignee q → p = q := by
  intro p q hp1 hp2 hq1 hq2 heq
  by_contra hne
  rcases Nat.lt_or_ge p q with h | h
  · exact run.stops p q h (by rw [inqueueTrace_length]; omega)
      (inqueueTrace_sentinel jobs n p hp1 hp2) heq.symm
  · have h2 : q < p := by omega
    exact run.stops q p h2 (by rw [inqueueTrace_length]; omega)
      (inqueueTrace_sentinel jobs n q hq1 hq2) heq

theorem reader_sentinel_exists_unique (jobs : List Block) (n : Nat)
    (run : FileEngine.ReaderRun jobs n) (w : Nat) (hw : w < n) :
    ∃ p, (jobs.length ≤ p ∧ p < jobs.length + n) ∧ run.assignee p = w ∧
      ∀ q, jobs.length ≤ q → q < jobs.length + n → run.assignee q = w → q = p := by
  classical
  have himage : (Finset.Ico jobs.length (jobs.length + n)).image run.assignee =
      Finset.range n := by
    apply Finset.eq_of_subset_of_card_le
    · intro x hx
      simp only [Finset.mem_image, Finset.mem_Ico] at hx
      obtain ⟨p, ⟨hp1, hp2⟩, rfl⟩ := hx
      simp only [Finset.mem_range]
      exact run.assignee_lt p (by rw [inqueueTrace_length]; omega)
    · rw [Finset.card_image_of_injOn, Nat.card_Ico, Finset.card_range]
      · omega
      · intro p hp q hq heq
        simp only [Finset.coe_Ico, Set.mem_Ico] at hp hq
        exact reader_assignee_inj jobs n run p q hp.1 hp.2 hq.1 hq.2 heq
  have hwmem : w ∈ (Finset.Ico jobs.length (jobs.length + n)).image run.assignee := by
    rw [himage]
    exact Finset.mem_range.mpr hw
  simp only [Finset.mem_image, Finset.mem_Ico] at hwmem
  obtain ⟨p, ⟨hp1, hp2⟩, hpw⟩ := hwmem
  refine ⟨p, ⟨hp1, hp2⟩, hpw, ?_⟩
  intro q hq1 hq2 hqw
  exact reader_assignee_inj jobs n run q p hq1 hq2 hp1 hp2 (by rw [hqw, hpw])

theorem filter_singleton_of_unique {l : List Nat} {f : Nat → Bool} {a : Nat}
    (ha : a ∈ l) (hfa : f a = true) (hnd : l.Nodup)
    (hu : ∀ b ∈ l, f b = true → b = a) : l.filter f = [a] := by
  induction l with
  | nil => cases ha
  | cons x xs ih =>
    rcases List.mem_cons.mp ha with rfl | hmem
    · rw [List.filter_cons_of_pos hfa]
      have hxs : xs.filter f = [] := by
        rw [List.filter_eq_nil_iff]
        intro b hb hfb
        have hba : b = a := hu b (List.mem_cons_of_mem _ hb) (by simpa using hfb)
        subst hba
        exact (List.nodup_cons.mp hnd).1 hb
      rw [hxs]
    · have hfx : f x = false := by
        by_contra hcon
        have hxt : f x = true := by
          cases hx : f x
          · exact absurd hx hcon
          · rfl
        have hxa : x = a := hu x (List.mem_cons_self x xs) hxt
        subst hxa
        exact (List.nodup_cons.mp hnd).1 hmem
      rw [List.filter_cons_of_neg (by simp [hfx])]
      exact ih hmem (List.nodup_cons.mp hnd).2
        (fun b hb hfb => hu b (List.mem_cons_of_mem x hb) hfb)

theorem filterMap_trace_below (jobs : List Block) (n : Nat) (l : List Nat)
    (hl : ∀ p ∈ l, p < jobs.length) :
    l.filterMap (fun p => (FileEngine.inqueueTrace jobs n)[p]?) =
      (l.filterMap (fun p => jobs[p]?)).map some := by
  induction l with
  | nil => rfl
  | cons p l2 ih =>
    have hp : p < jobs.length := hl p (List.mem_cons_self p l2)
    obtain ⟨b, hb⟩ : ∃ b, jobs[p]? = some b :=
      ⟨jobs[p], List.getElem?_eq_getElem hp⟩
    have htr : (FileEngine.inqueueTrace jobs n)[p]? = some (some b) := by
      rw [inqueueTrace_job jobs n p hp, hb]
      rfl
    simp only [List.filterMap_cons, htr, hb, List.map_cons]
    rw [ih (fun q hq => hl q (List.mem_cons_of_mem p hq))]

theorem consumedBy_shape (jobs : List Block) (n : Nat)
    (run : FileEngine.ReaderRun jobs n) (w : Nat) (hw : w < n) :
    ∃ ws : List Block,
      FileEngine.consumedBy jobs n run.assignee w = ws.map some ++ [none] ∧
      ∀ b ∈ ws, b ∈ jobs := by
  obtain ⟨pw, ⟨hpw1, hpw2⟩, hpww, huniq⟩ :=
    reader_sentinel_exists_unique jobs n run w hw
  have hsplit : List.range (jobs.length + n) =
      List.range jobs.length ++ (List.range n).map (jobs.length + ·) :=
    List.range_add jobs.length n
  have hsent : ((List.range n).map (jobs.length + ·)).filter
      (fun p => run.assignee p == w) = [pw] := by
    apply filter_singleton_of_unique
    · simp only [List.mem_map, List.mem_range]
      exact ⟨pw - jobs.length, by omega, by omega⟩
    · simpa using hpww
    · exact List.Nodup.map (fun a b hab => by omega) (List.nodup_range n)
    · intro b hb hfb
      simp only [List.mem_map, List.mem_range] at hb
      obtain ⟨k, hk, rfl⟩ := hb
      exact huniq (jobs.length + k) (by omega) (by omega) (by simpa using hfb)
  have hbelow : ∀ p ∈ (List.range jobs.length).filter
      (fun p => run.assignee p == w), p < jobs.length := by
    intro p hp
    have := List.mem_of_mem_filter hp
    simpa using this
  refine ⟨((List.range jobs.length).filter (fun p => run.assignee p == w)).filterMap
    (fun p => jobs[p]?), ?_, ?_⟩
  · rw [FileEngine.consumedBy, inqueueTrace_length, hsplit, List.filter_append,
      hsent, List.filterMap_append,
      filterMap_trace_below jobs n _ hbelow]
    congr 1
    simp only [List.filterMap_cons, List.filterMap_nil]
    rw [inqueueTrace_sentinel jobs n pw hpw1 hpw2]
  · intro b hb
    simp only [List.mem_filterMap] at hb
    obtain ⟨p, _, hpb⟩ := hb
    exact List.getElem?_mem hpb

theorem readerStep_results_exist (hash : List Nat → String) (file : List Nat) (bs : Nat)
    (ws : List Block) (h : ∀ b ∈ ws, (FileEngine.readerStep hash file bs b).isOk = true) :
    ∃ results : List FileEngine.ReadResult,
      ws.map (fun b => (FileEngine.readerStep hash file bs b).toOption) =
        results.map some := by
  induction ws with
  | nil => exact ⟨[], rfl⟩
  | cons b ws2 ih =>
    obtain ⟨rs, hrs⟩ := ih (fun x hx => h x (List.mem_cons_of_mem b hx))
    obtain ⟨r, hr⟩ : ∃ r, FileEngine.readerStep hash file bs b = .ok r := by
      have hb := h b (List.mem_cons_self b ws2)
      cases hstep : FileEngine.readerStep hash file bs b with
      | ok r => exact ⟨r, rfl⟩
      | error e => rw [hstep] at hb; exact Bool.noConfusion hb
    refine ⟨r :: rs, ?_⟩
    simp only [List.map_cons, hr, hrs]
    rfl

/-- Claim C8: `close()` in read mode enqueues exactly one `None` sentinel per
reader worker on the input queue and joins each worker; a reader that
dequeues the sentinel forwards exactly one `None` to the output queue as its
final action and terminates.  Hence, in any complete run in which every
submitted job completes, every worker's contribution to the output queue is
its job results followed by exactly one terminal sentinel with nothing
afterwards, and a consumer of `get()` observes exactly `n` sentinels in
total. -/
theorem C8_close_sentinel_per_worker (jobs : List Block) (n : Nat)
    (run : FileEngine.ReaderRun jobs n) (hash : List Nat → String) (file : List Nat)
    (bs : Nat)
    (hok : ∀ b ∈ jobs, (FileEngine.readerStep hash file bs b).isOk = true) :
    FileEngine.closeSentinels n = List.replicate n none ∧
    (∀ w, w < n → ∃ results : List FileEngine.ReadResult,
      FileEngine.workerOut hash file bs (FileEngine.consumedBy jobs n run.assignee w) =
        results.map some ++ [none] ∧
      (FileEngine.workerOut hash file bs
        (FileEngine.consumedBy jobs n run.assignee w)).count none = 1) ∧
    ((List.range n).map (fun w => (FileEngine.workerOut hash file bs
      (FileEngine.consumedBy jobs n run.assignee w)).count none)).sum = n := by
  have hper : ∀ w, w < n → ∃ results : List FileEngine.ReadResult,
      FileEngine.workerOut hash file bs (FileEngine.consumedBy jobs n run.assignee w) =
        results.map some ++ [none] ∧
      (FileEngine.workerOut hash file bs
        (FileEngine.consumedBy jobs n run.assignee w)).count none = 1 := by
    intro w hw
    obtain ⟨ws, hshape, hsub⟩ := consumedBy_shape jobs n run w hw
    obtain ⟨results, hres⟩ := readerStep_results_exist hash file bs ws
      (fun b hb => hok b (hsub b hb))
    have hout : FileEngine.workerOut hash file bs
        (FileEngine.consumedBy jobs n run.assignee w) = results.map some ++ [none] := by
      rw [FileEngine.workerOut, hshape, List.map_append]
      congr 1
      · rw [List.map_map, ← hres]
        rfl
    have h0 : (results.map some).count (none : Option FileEngine.ReadResult) = 0 := by
      rw [List.count_eq_zero]
      intro hmem
      simp only [List.mem_map] at hmem
      obtain ⟨r, _, hr⟩ := hmem
      exact Option.noConfusion hr
    refine ⟨results, hout, ?_⟩
    rw [hout, List.count_append, h0]
    rfl
  refine ⟨rfl, hper, ?_⟩
  have hmap : (List.range n).map (fun w => (FileEngine.workerOut hash file bs
      (FileEngine.consumedBy jobs n run.assignee w)).count none) =
      (List.range n).map (fun _ => 1) := by
    apply List.map_congr_left
    intro w hw
    obtain ⟨_, _, h2⟩ := hper w (List.mem_range.mp hw)
    exact h2
  rw [hmap]
  simp

/-- Witness for claim C8: one submitted job, one reader worker, a 2-byte
file; the consumer sees exactly one terminal sentinel. -/
theorem C8_witness :
    ((List.range 1).map (fun w =>
      (FileEngine.workerOut (fun _ => "h") [5, 6] 2
        (FileEngine.consumedBy [⟨0, none, true⟩] 1 runW.assignee w)).count none)).sum = 1 :=
  (C8_close_sentinel_per_worker [⟨0, none, true⟩] 1 runW (fun _ => "h") [5, 6] 2
    (by intro b hb; simp only [List.mem_singleton] at hb; subst hb; rfl)).2.2

set_option maxRecDepth 100000 in
/-- Sanity check of the MD5 model against a digest computed by Python's
`hashlib.md5`: the model reproduces the library on the kind of input
`DataBackend._uid` feeds it (a 22-character ASCII string). -/
theorem md5_matches_hashlib_test_vector :
    MD5.hexdigest ("abcdefghijkmnopqrstuvw".data.map Char.toNat) =
      "f1d77d921a1851c98f73e36001d3daed".data := by decide

